import Mathlib

/-!
# StudyGenie — verification of the frontend study pipeline

Shallow embedding of the StudyGenie client (frontend/src/App.js,
frontend/src/contexts/AuthContext.js, components/auth/ProtectedRoute.js)
together with spec-modelled pieces of the backend that is not part of the
sources (quiz generation validation, ownership-scoped document reads).
-/

namespace StudyGenie

/-! ## Data model (App.js quiz / flashcards payloads) -/

/-- A quiz question as delivered by `GET /documents/{id}/quiz`:
question text, option strings (each beginning with its label letter),
the single-letter `correct_answer`, and an optional explanation. -/
structure Question where
  question : String
  options : List String
  correct_answer : String
  explanation : Option String
deriving DecidableEq, Repr

/-- A quiz: ordered list of questions. -/
structure Quiz where
  questions : List Question
deriving DecidableEq, Repr

/-- A flashcard: term and definition. -/
structure Flashcard where
  term : String
  definition : String
deriving DecidableEq, Repr

/-- Flashcards payload: ordered list of cards. -/
structure Flashcards where
  cards : List Flashcard
deriving DecidableEq, Repr

/-- JavaScript `s.charAt(0)`: the first character as a one-character
string, or the empty string when `s` is empty. -/
def charAt0 (s : String) : String :=
  match s.data with
  | [] => ""
  | c :: _ => String.mk [c]

/-! ## QuizView answer handling (App.js lines 235-252, 297-310, 339-347) -/

/-- Highlight applied to an option row on the results screen. -/
inductive Highlight where
  | correctMark
  | wrongMark
  | neutral
deriving DecidableEq, Repr

/-- App.js lines 300-306: an option is highlighted green when its first
character equals the question's `correct_answer`; otherwise red when it is
the (letter) the user selected; otherwise neutral. -/
def optionHighlight (q : Question) (selected : Option String) (opt : String) : Highlight :=
  if charAt0 opt = q.correct_answer then .correctMark
  else if selected = some (charAt0 opt) then .wrongMark
  else .neutral

/-- App.js line 344: clicking an option stores `option.charAt(0)` as the
selected answer for the current question. -/
def selectOptionLetter (opt : String) : String := charAt0 opt

/-- App.js line 245: a stored answer is counted as correct when it equals
the question's `correct_answer` (`undefined` is modelled as `none`). -/
def answerMatches (a : Option String) (q : Question) : Bool :=
  decide (a = some q.correct_answer)

/-! ## Spec-modelled backend pieces (backend/server.py is not among the sources) -/

/-- Canonical quiz option labels. -/
def quizLabels : List String := ["A", "B", "C", "D"]

/-- The leading label letters of a question's options (the label of an
option string is its first character, as used throughout QuizView). -/
def optionLabels (q : Question) : List String := q.options.map charAt0

/-- Modelled from the spec: the backend quiz generator and its output
validation (`backend/server.py`) are not among the sources. Per the spec a
generated quiz question has an ordered sequence of 4 options labeled
uniquely `A`-`D`, and a `correct_answer` that is one of the 4 labels; the
generator validates option-count and correct-answer membership before
accepting. A question emitted by generation satisfies this validator. -/
def validQuestion (q : Question) : Bool :=
  decide (optionLabels q = quizLabels) && decide (q.correct_answer ∈ quizLabels)

/-- Modelled from the spec: a generated quiz has every question valid. -/
def validQuiz (qz : Quiz) : Bool := qz.questions.all validQuestion

/-- A stored backend document, reduced to the fields ownership scoping
touches. -/
structure StoredDocument where
  id : String
  owner_id : String
  filename : String
  summary : Option String
deriving DecidableEq, Repr

/-- Outcome of a backend read endpoint for one document. -/
inductive ReadResult where
  | found (d : StoredDocument)
  | notFound
  | forbidden
deriving DecidableEq, Repr

/-- Modelled from the spec: the backend read endpoints (`backend/server.py`)
are not among the sources. Per the spec every read is ownership-scoped: the
store lookup filters by document id and the authenticated caller's
`owner_id`, and a miss — document absent or owned by someone else — answers
`NotFound`, never `Forbidden`. -/
def readDocument (callerId : String) (store : List StoredDocument)
    (docId : String) : ReadResult :=
  match store.find? (fun d => decide (d.id = docId) && decide (d.owner_id = callerId)) with
  | some d => .found d
  | none => .notFound

end StudyGenie

namespace StudyGenie

/-- C1: quiz answer checking is first-character based — an option is shown
as the correct answer exactly when its leading character equals the
question's `correct_answer`; a selected answer (the chosen option's leading
character) is counted as correct exactly when it equals `correct_answer`;
and a question whose options duplicate the correct leading character marks
more than one option correct. -/
theorem quiz_first_char_answer_matching :
    (∀ (q : Question) (sel : Option String) (opt : String),
      optionHighlight q sel opt = .correctMark ↔ charAt0 opt = q.correct_answer) ∧
    (∀ (q : Question) (opt : String),
      answerMatches (some (selectOptionLetter opt)) q = true ↔
        charAt0 opt = q.correct_answer) ∧
    (∃ q : Question,
      (∃ o₁ ∈ q.options, ∃ o₂ ∈ q.options, o₁ ≠ o₂ ∧
        charAt0 o₁ = q.correct_answer ∧ charAt0 o₂ = q.correct_answer) ∧
      2 ≤ (q.options.filter
        (fun o => decide (optionHighlight q none o = .correctMark))).length) := by
  refine ⟨?_, ?_, ?_⟩
  · intro q sel opt
    unfold optionHighlight
    by_cases h : charAt0 opt = q.correct_answer
    · simp [h]
    · simp only [h, if_false, iff_false]
      split <;> simp
  · intro q opt
    simp [answerMatches, selectOptionLetter]
  · refine ⟨⟨"Which?", ["A) first", "Also second", "B) third", "C) fourth"], "A", none⟩,
      ⟨"A) first", by decide, "Also second", by decide, by decide⟩, by decide⟩

/-- C2: for every generated quiz (modelled from the spec, the generator not
being among the sources), each question has exactly 4 options labeled
uniquely `A`-`D`, and `correct_answer` matches exactly one option label. -/
theorem generated_quiz_label_invariant (qz : Quiz) (hv : validQuiz qz = true) :
    ∀ q ∈ qz.questions,
      q.options.length = 4 ∧
      (optionLabels q).Nodup ∧
      q.correct_answer ∈ optionLabels q ∧
      q.options.countP (fun o => decide (charAt0 o = q.correct_answer)) = 1 := by
  intro q hq
  have hvq : validQuestion q = true := List.all_eq_true.mp hv q hq
  unfold validQuestion at hvq
  rw [Bool.and_eq_true, decide_eq_true_iff, decide_eq_true_iff] at hvq
  obtain ⟨hlab, hmem⟩ := hvq
  refine ⟨?_, ?_, ?_, ?_⟩
  · have hlen := congrArg List.length hlab
    simpa [optionLabels, quizLabels] using hlen
  · rw [hlab]; decide
  · rw [hlab]; exact hmem
  · have hcp : q.options.countP (fun o => decide (charAt0 o = q.correct_answer)) =
        (optionLabels q).countP (fun l => decide (l = q.correct_answer)) := by
      rw [optionLabels, List.countP_map]
      rfl
    rw [hcp, hlab]
    simp only [quizLabels, List.mem_cons, List.not_mem_nil, or_false] at hmem
    rcases hmem with h | h | h | h <;> rw [h] <;> decide

/-- Witness for C2 at a concrete valid quiz. -/
theorem generated_quiz_label_invariant_witness :
    validQuiz ⟨[⟨"Q1", ["A) ok", "B) no", "C) no", "D) no"], "B", none⟩]⟩ = true ∧
    ∀ q ∈ (Quiz.mk [⟨"Q1", ["A) ok", "B) no", "C) no", "D) no"], "B", none⟩]).questions,
      q.options.length = 4 ∧
      (optionLabels q).Nodup ∧
      q.correct_answer ∈ optionLabels q ∧
      q.options.countP (fun o => decide (charAt0 o = q.correct_answer)) = 1 :=
  ⟨by decide,
    generated_quiz_label_invariant
      ⟨[⟨"Q1", ["A) ok", "B) no", "C) no", "D) no"], "B", none⟩]⟩ (by decide)⟩

/-- C3: a read by one user can never return a document owned by a distinct
other user, and a read that does not find a caller-owned document answers
`NotFound`, never `Forbidden` (modelled from the spec, the backend read
endpoints not being among the sources). -/
theorem read_endpoint_ownership_isolation
    (u₁ u₂ : String) (store : List StoredDocument) (docId : String)
    (hne : u₁ ≠ u₂) :
    (∀ d : StoredDocument,
      readDocument u₁ store docId = .found d → d.owner_id = u₁ ∧ d.owner_id ≠ u₂) ∧
    readDocument u₁ store docId ≠ .forbidden := by
  constructor
  · intro d hd
    unfold readDocument at hd
    rcases hfind : store.find?
        (fun d => decide (d.id = docId) && decide (d.owner_id = u₁)) with _ | d'
    · rw [hfind] at hd
      exact absurd hd (by simp)
    · rw [hfind] at hd
      have hpred := List.find?_some hfind
      rw [Bool.and_eq_true, decide_eq_true_iff, decide_eq_true_iff] at hpred
      have hdd : d' = d := by injection hd
      subst hdd
      exact ⟨hpred.2, hpred.2 ▸ hne⟩
  · unfold readDocument
    rcases hfind : store.find?
        (fun d => decide (d.id = docId) && decide (d.owner_id = u₁)) with _ | d' <;>
      rw [hfind] <;> simp

/-- Witness for C3: two users, a one-document store. -/
theorem read_endpoint_ownership_isolation_witness :
    (∀ d : StoredDocument,
      readDocument "alice" [⟨"doc1", "bob", "b.pdf", none⟩] "doc1" = .found d →
        d.owner_id = "alice" ∧ d.owner_id ≠ "bob") ∧
    readDocument "alice" [⟨"doc1", "bob", "b.pdf", none⟩] "doc1" ≠ .forbidden :=
  read_endpoint_ownership_isolation "alice" "bob"
    [⟨"doc1", "bob", "b.pdf", none⟩] "doc1" (by decide)

/-! ## FileUploader (App.js lines 82-165) -/

/-- A browser `File` as the uploader sees it: name and declared media type. -/
structure JsFile where
  name : String
  type : String
deriving DecidableEq, Repr

/-- JavaScript `String.prototype.includes`: `pat` occurs as a contiguous
substring (over the character list). -/
def listInfixOf (pat : List Char) : List Char → Bool
  | [] => pat.isEmpty
  | c :: tl => pat.isPrefixOf (c :: tl) || listInfixOf pat tl

/-- `s.includes(pat)` from App.js line 111. -/
def jsIncludes (s pat : String) : Bool := listInfixOf pat.data s.data

/-- App.js line 111: the drop guard
`file.type.includes('pdf') || file.type.includes('image')`. -/
def dropAccepted (t : String) : Bool := jsIncludes t "pdf" || jsIncludes t "image"

/-- App.js lines 107-114 `handleDrop`: take the first dropped file; when it
exists and passes the substring guard, it becomes the selected file,
otherwise the previous selection stays. -/
def handleDrop (dropped : Option JsFile) (selectedFile : Option JsFile) : Option JsFile :=
  match dropped with
  | none => selectedFile
  | some f => if dropAccepted f.type then some f else selectedFile

/-- App.js lines 86-88 and 133-139: the browse input's change handler calls
`handleFileSelect(e.target.files[0])`, which stores the chosen file with no
media-type check (the input's `accept` attribute is only a picker hint). -/
def inputOnChange (chosen : Option JsFile) (previousSelection : Option JsFile) :
    Option JsFile :=
  match previousSelection with
  | _ => chosen

/-- App.js lines 90-105 `handleUpload`: whatever file is selected is posted
to `/upload`, again with no media-type check. -/
def handleUpload (selectedFile : Option JsFile) : Option JsFile := selectedFile

/-- The spec's accepted media types, stated from the spec's words for
comparison: `application/pdf`, or a raster `image/...` type. -/
def isPdfOrImageMediaType (t : String) : Bool :=
  decide (t = "application/pdf") || "image/".data.isPrefixOf t.data

/-- A pattern that starts some non-empty list occurs in it as a substring. -/
theorem listInfixOf_of_isPrefixOf (pat l : List Char) (h : pat.isPrefixOf l = true) :
    listInfixOf pat l = true := by
  cases l with
  | nil =>
    cases pat with
    | nil => rfl
    | cons c cs => simp [List.isPrefixOf] at h
  | cons c tl =>
    unfold listInfixOf
    rw [h, Bool.true_or]

/-- C4 counterexample: a dropped file whose declared type merely contains
the substring `image` is selected although it is not a PDF or image media
type, and a `text/plain` file chosen through the browse input is selected
with no check at all. -/
theorem upload_gate_counterexample :
    (handleDrop (some ⟨"notes.bin", "application/x-image-disguised"⟩) none =
        some ⟨"notes.bin", "application/x-image-disguised"⟩ ∧
      isPdfOrImageMediaType "application/x-image-disguised" = false) ∧
    (inputOnChange (some ⟨"notes.txt", "text/plain"⟩) none =
        some ⟨"notes.txt", "text/plain"⟩ ∧
      isPdfOrImageMediaType "text/plain" = false ∧
      handleUpload (some ⟨"notes.txt", "text/plain"⟩) =
        some ⟨"notes.txt", "text/plain"⟩) := by
  refine ⟨⟨?_, by decide⟩, ⟨rfl, by decide, rfl⟩⟩
  rw [handleDrop]
  have hacc : dropAccepted "application/x-image-disguised" = true := by decide
  rw [hacc]
  rfl

/-- C4 amended: a dropped file is selected exactly when its declared media
type contains `pdf` or `image` as a substring — so every `application/pdf`
or `image/...` file is selected, but so are other types containing those
substrings — and a file chosen through the browse input is selected with no
media-type check at all. -/
theorem upload_gate_substring_amended :
    (∀ (f : JsFile) (sel : Option JsFile),
      handleDrop (some f) sel = if dropAccepted f.type then some f else sel) ∧
    (∀ t : String, isPdfOrImageMediaType t = true → dropAccepted t = true) ∧
    (∀ chosen sel : Option JsFile, inputOnChange chosen sel = chosen) := by
  refine ⟨fun f sel => rfl, ?_, fun chosen sel => by cases sel <;> rfl⟩
  intro t ht
  unfold isPdfOrImageMediaType at ht
  rw [Bool.or_eq_true, decide_eq_true_iff] at ht
  rcases ht with ht | ht
  · rw [ht]; decide
  · unfold dropAccepted jsIncludes
    have himg : ("image".data).isPrefixOf t.data = true := by
      rw [List.isPrefixOf_iff_prefix] at ht ⊢
      exact List.IsPrefix.trans (by decide) ht
    rw [listInfixOf_of_isPrefixOf _ _ himg, Bool.or_true]

/-- Witness for the amended C4 at a genuine image media type. -/
theorem upload_gate_substring_amended_witness :
    dropAccepted "image/png" = true :=
  upload_gate_substring_amended.2.1 "image/png" (by decide)

/-! ## AITutorChat (App.js lines 482-570) -/

/-- The body posted to `POST /chat` (App.js lines 495-498): exactly the
document id and the current message. -/
structure ChatRequest where
  document_id : String
  message : String
deriving DecidableEq, Repr

/-- One UI chat turn kept in component state. -/
structure ChatMessage where
  message : String
  response : Option String
  isUser : Bool
deriving DecidableEq, Repr

/-- AITutorChat component state: the rendered history, the input box, and
the loading flag. -/
structure ChatState where
  messages : List ChatMessage
  input : String
  loading : Bool
deriving DecidableEq, Repr

/-- App.js lines 487-498 `sendMessage`: aborts when the trimmed input is
empty; otherwise posts `{document_id, message: input}` and optimistically
appends the user turn while loading. Returns the posted request (if any)
with the updated state. -/
def sendMessage (documentId : String) (s : ChatState) : Option ChatRequest × ChatState :=
  if s.input.trim = "" then (none, s)
  else (some ⟨documentId, s.input⟩,
    { s with messages := s.messages ++ [⟨s.input, none, true⟩], loading := true })

/-- C5: the chat request contains exactly the document id and the current
message; two sends with the same document id and input text build identical
requests regardless of the conversation history held in the UI. -/
theorem chat_request_stateless (documentId : String) (s₁ s₂ : ChatState)
    (hin : s₁.input = s₂.input) :
    (sendMessage documentId s₁).1 = (sendMessage documentId s₂).1 ∧
    ((sendMessage documentId s₁).1 = none ∨
      (sendMessage documentId s₁).1 = some ⟨documentId, s₁.input⟩) := by
  unfold sendMessage
  rw [hin]
  constructor
  · split <;> rfl
  · split
    · exact Or.inl rfl
    · exact Or.inr rfl

/-- Witness for C5: same input, two different histories. -/
theorem chat_request_stateless_witness :
    (sendMessage "doc1" ⟨[], "hi", false⟩).1 =
      (sendMessage "doc1" ⟨[⟨"earlier question", some "earlier answer", true⟩],
        "hi", false⟩).1 ∧
    ((sendMessage "doc1" ⟨[], "hi", false⟩).1 = none ∨
      (sendMessage "doc1" ⟨[], "hi", false⟩).1 = some ⟨"doc1", "hi"⟩) :=
  chat_request_stateless "doc1" ⟨[], "hi", false⟩
    ⟨[⟨"earlier question", some "earlier answer", true⟩], "hi", false⟩ rfl

/-! ## Not-ready indicators (App.js lines 254-271 and 406-423) -/

/-- What the QuizView renders. `questionScreen none` models the render
reaching `quiz.questions[currentQuestion]` with no such question
(JavaScript `undefined`). -/
inductive QuizRender where
  | loadingSpinner
  | notReadyNotice
  | resultsScreen
  | questionScreen (q : Option Question)
deriving DecidableEq, Repr

/-- App.js lines 254-379: spinner while loading; the "Quiz is being
generated" alert when the fetch produced no quiz; the results screen after
submission; otherwise the current question. -/
def quizViewRender (loading : Bool) (quiz : Option Quiz) (showResults : Bool)
    (currentQuestion : Nat) : QuizRender :=
  if loading then .loadingSpinner
  else
    match quiz with
    | none => .notReadyNotice
    | some qz =>
      if showResults then .resultsScreen
      else .questionScreen (qz.questions.get? currentQuestion)

/-- What the FlashcardsView renders. -/
inductive FlashRender where
  | loadingSpinner
  | notReadyNotice
  | cardScreen (c : Option Flashcard) (flipped : Bool)
deriving DecidableEq, Repr

/-- App.js lines 406-478: spinner while loading; the "Flashcards are being
generated" alert when `!flashcards || !flashcards.cards.length`; otherwise
the current card. -/
def flashcardsViewRender (loading : Bool) (fc : Option Flashcards) (currentCard : Nat)
    (flipped : Bool) : FlashRender :=
  if loading then .loadingSpinner
  else
    match fc with
    | none => .notReadyNotice
    | some f =>
      if f.cards.length = 0 then .notReadyNotice
      else .cardScreen (f.cards.get? currentCard) flipped

/-- C6 counterexample: a fetched quiz whose question list is empty — an
empty artifact — is not shown as the being-generated notice; the quiz view
proceeds to the question screen with a missing question. -/
theorem not_ready_indicator_counterexample :
    quizViewRender false (some ⟨[]⟩) false 0 = .questionScreen none ∧
    quizViewRender false (some ⟨[]⟩) false 0 ≠ .notReadyNotice := by
  refine ⟨rfl, ?_⟩
  decide

/-- C6 amended: once loading is over, the flashcards view shows the
being-generated notice exactly when the artifact is absent or its card list
is empty, but the quiz view shows it exactly when the artifact is absent —
a present quiz with an empty question list is rendered as a question screen
with a missing question, not as the notice. -/
theorem not_ready_indicator_amended :
    (∀ (fc : Option Flashcards) (i : Nat) (fl : Bool),
      flashcardsViewRender false fc i fl = .notReadyNotice ↔
        fc = none ∨ ∃ f, fc = some f ∧ f.cards = []) ∧
    (∀ (qz : Option Quiz) (sr : Bool) (i : Nat),
      quizViewRender false qz sr i = .notReadyNotice ↔ qz = none) := by
  constructor
  · intro fc i fl
    rcases fc with _ | f
    · simp [flashcardsViewRender]
    · by_cases hz : f.cards = []
      · simp [flashcardsViewRender, hz]
      · have hlz : ¬f.cards.length = 0 := by simpa [List.length_eq_zero] using hz
        simp [flashcardsViewRender, hlz, hz]
  · intro qz sr i
    rcases qz with _ | q
    · simp [quizViewRender]
    · rcases sr with _ | _ <;> simp [quizViewRender]

/-! ## Authentication state (AuthContext.js, ProtectedRoute.js) -/

/-- The user object returned by `GET /auth/me`. -/
structure AuthUser where
  name : String
  email : String
  picture : Option String
deriving DecidableEq, Repr

/-- AuthContext state: `user`, `isAuthenticated`, `loading`. -/
structure AuthState where
  user : Option AuthUser
  isAuthenticated : Bool
  loading : Bool
deriving DecidableEq, Repr

/-- AuthContext.js lines 33-45 `checkAuthStatus`: on a successful `/auth/me`
response the user is stored and authenticated; on any failure the user is
cleared and unauthenticated; either way `loading` ends false. -/
def checkAuthStatus (result : Except String AuthUser) (s : AuthState) : AuthState :=
  match result with
  | .ok u => { s with user := some u, isAuthenticated := true, loading := false }
  | .error _ => { s with user := none, isAuthenticated := false, loading := false }

/-- What ProtectedRoute renders. -/
inductive RouteRender where
  | loadingScreen
  | loginScreen
  | childrenContent
deriving DecidableEq, Repr

/-- ProtectedRoute.js lines 5-24: spinner while loading, the Google login
screen when unauthenticated, otherwise the protected children. -/
def protectedRoute (s : AuthState) : RouteRender :=
  if s.loading then .loadingScreen
  else if !s.isAuthenticated then .loginScreen
  else .childrenContent

/-- C7: whenever the session check fails, the client ends unauthenticated
(`user = none`, `isAuthenticated = false`, `loading = false`) and the
protected route renders the login screen instead of the children. -/
theorem auth_failure_renders_login (e : String) (s : AuthState) :
    (checkAuthStatus (.error e) s).user = none ∧
    (checkAuthStatus (.error e) s).isAuthenticated = false ∧
    (checkAuthStatus (.error e) s).loading = false ∧
    protectedRoute (checkAuthStatus (.error e) s) = .loginScreen := by
  refine ⟨rfl, rfl, rfl, ?_⟩
  rfl

/-- AuthContext.js lines 69-78 `logout`: posts `/auth/logout`; whether the
request succeeds or throws, the `finally` block clears the user and the
authenticated flag. -/
def logout (requestResult : Except String Unit) (s : AuthState) : AuthState :=
  match requestResult with
  | .ok _ => { s with user := none, isAuthenticated := false }
  | .error _ => { s with user := none, isAuthenticated := false }

/-- C10: after every logout invocation — backend request succeeding or
failing — the client state ends with `user = none` and
`isAuthenticated = false`. -/
theorem logout_always_clears_session (r : Except String Unit) (s : AuthState) :
    (logout r s).user = none ∧ (logout r s).isAuthenticated = false := by
  cases r <;> exact ⟨rfl, rfl⟩

/-! ## Quiz submission and scoring (App.js lines 235-252 and 360-367)

The `selectedAnswers` object is keyed by question index — the only writes
go through `handleAnswerSelect(currentQuestion, ...)` and `currentQuestion`
stays within the question range — so it is embedded as a per-index list of
optional answer letters, JavaScript `undefined` being `none`. -/

/-- `selectedAnswers[i]`: the stored letter, or `none` for `undefined`. -/
def answerAt (answers : List (Option String)) (i : Nat) : Option String :=
  (answers.get? i).getD none

/-- `Object.keys(selectedAnswers).length`: how many questions have an
answer recorded. -/
def answeredCount (answers : List (Option String)) : Nat :=
  answers.countP (fun a => a.isSome)

/-- App.js line 363: the submit button is enabled unless
`Object.keys(selectedAnswers).length < quiz.questions.length`. -/
def submitEnabled (numQuestions : Nat) (answers : List (Option String)) : Bool :=
  decide (numQuestions ≤ answeredCount answers)

/-- App.js lines 242-252 `calculateScore`: walk the questions in order and
count the positions whose stored answer strictly equals the question's
`correct_answer` (a missing answer compares unequal, as `undefined` does). -/
def calculateScore : List Question → List (Option String) → Nat
  | [], _ => 0
  | q :: qs, [] => (if answerMatches none q then 1 else 0) + calculateScore qs []
  | q :: qs, a :: rest => (if answerMatches a q then 1 else 0) + calculateScore qs rest

/-- App.js line 251: `onComplete(correct, quiz.questions.length)`. -/
def quizComplete (qs : List Question) (answers : List (Option String)) : Nat × Nat :=
  (calculateScore qs answers, qs.length)

theorem answerAt_nil (i : Nat) : answerAt [] i = none := by
  simp [answerAt]

theorem answerAt_cons_succ (a : Option String) (l : List (Option String)) (i : Nat) :
    answerAt (a :: l) (i + 1) = answerAt l i := rfl

/-- `calculateScore` counts exactly the question indices whose stored
answer equals that question's `correct_answer`. -/
theorem calculateScore_eq_countMatching (qs : List Question)
    (ans : List (Option String)) :
    calculateScore qs ans =
      (List.range qs.length).countP
        (fun i => decide (answerAt ans i = (qs.get? i).map Question.correct_answer)) := by
  induction qs generalizing ans with
  | nil => simp [calculateScore]
  | cons q qs ih =>
    have hstep : ∀ (a : Option String) (rest : List (Option String)),
        ans = a :: rest ∨ (ans = [] ∧ a = none ∧ rest = []) →
        calculateScore (q :: qs) ans =
          (List.range (q :: qs).length).countP
            (fun i => decide (answerAt ans i = ((q :: qs).get? i).map
              Question.correct_answer)) := by
      intro a rest hcase
      rcases hcase with hcons | ⟨hnil, ha, hrest⟩
      · subst hcons
        rw [List.length_cons, List.range_succ_eq_map, List.countP_cons, List.countP_map]
        have hpred : ((fun i => decide (answerAt (a :: rest) i =
            ((q :: qs).get? i).map Question.correct_answer)) ∘ (· + 1)) =
            (fun i => decide (answerAt rest i = (qs.get? i).map Question.correct_answer)) := by
          funext i
          simp [Function.comp, answerAt_cons_succ]
        rw [hpred, ← ih rest]
        show (if answerMatches a q then 1 else 0) + calculateScore qs rest = _
        have h0 : (decide (answerAt (a :: rest) 0 =
            ((q :: qs).get? 0).map Question.correct_answer)) = answerMatches a q := by
          simp [answerAt, answerMatches]
        rw [h0]
        omega
      · subst hnil; subst ha; subst hrest
        rw [List.length_cons, List.range_succ_eq_map, List.countP_cons, List.countP_map]
        have hpred : ((fun i => decide (answerAt [] i =
            ((q :: qs).get? i).map Question.correct_answer)) ∘ (· + 1)) =
            (fun i => decide (answerAt [] i = (qs.get? i).map Question.correct_answer)) := by
          funext i
          simp [answerAt_nil]
        rw [hpred, ← ih []]
        show (if answerMatches none q then 1 else 0) + calculateScore qs [] = _
        have h0 : (decide (answerAt [] 0 =
            ((q :: qs).get? 0).map Question.correct_answer)) = answerMatches none q := by
          simp [answerAt_nil, answerMatches]
        rw [h0]
        omega
    cases ans with
    | nil => exact hstep none [] (Or.inr ⟨rfl, rfl, rfl⟩)
    | cons a rest => exact hstep a rest (Or.inl rfl)

/-- C8: with one answer slot per question, the quiz can be submitted only
when every question has a selected answer; the computed score is the number
of question indices whose selected answer equals that question's
`correct_answer`; and the completion callback receives exactly this score
with the total question count. -/
theorem quiz_submit_and_score (qs : List Question) (ans : List (Option String))
    (hlen : ans.length = qs.length) :
    (submitEnabled qs.length ans = true ↔ ∀ a ∈ ans, a.isSome) ∧
    calculateScore qs ans =
      (List.range qs.length).countP
        (fun i => decide (answerAt ans i = (qs.get? i).map Question.correct_answer)) ∧
    quizComplete qs ans = (calculateScore qs ans, qs.length) := by
  refine ⟨?_, calculateScore_eq_countMatching qs ans, rfl⟩
  unfold submitEnabled answeredCount
  rw [decide_eq_true_iff]
  constructor
  · intro hle a ha
    have hcle : ans.countP (fun a => a.isSome) ≤ ans.length :=
      List.countP_le_length _
    have heq : ans.countP (fun a => a.isSome) = ans.length := by omega
    have hall := List.countP_eq_length.mp heq
    simpa using hall a ha
  · intro hall
    have heq : ans.countP (fun a => a.isSome) = ans.length :=
      List.countP_eq_length.mpr (by intro a ha; simpa using hall a ha)
    omega

/-- Witness for C8: one question, one recorded answer. -/
theorem quiz_submit_and_score_witness :
    (submitEnabled [Question.mk "Q1" ["A) yes", "B) no"] "A" none].length
        [some "A"] = true ↔
      ∀ a ∈ ([some "A"] : List (Option String)), a.isSome) ∧
    calculateScore [Question.mk "Q1" ["A) yes", "B) no"] "A" none] [some "A"] =
      (List.range [Question.mk "Q1" ["A) yes", "B) no"] "A" none].length).countP
        (fun i => decide (answerAt [some "A"] i =
          (([Question.mk "Q1" ["A) yes", "B) no"] "A" none].get? i).map
            Question.correct_answer))) ∧
    quizComplete [Question.mk "Q1" ["A) yes", "B) no"] "A" none] [some "A"] =
      (calculateScore [Question.mk "Q1" ["A) yes", "B) no"] "A" none] [some "A"],
        [Question.mk "Q1" ["A) yes", "B) no"] "A" none].length) :=
  quiz_submit_and_score [Question.mk "Q1" ["A) yes", "B) no"] "A" none] [some "A"] rfl

/-! ## Quiz and flashcard navigation (App.js lines 351-376 and 455-476) -/

/-- A click on one of the QuizView navigation buttons. -/
inductive QuizNavAction where
  | prev
  | next
deriving DecidableEq, Repr

/-- App.js line 355: the Previous button is disabled at index 0. -/
def quizPrevDisabled (i : Nat) : Bool := decide (i = 0)

/-- App.js lines 351-375: Previous is disabled at index 0 and otherwise
sets `Math.max(0, i - 1)`; Next is rendered only when the index is not the
last one (the submit button replaces it there) and is disabled until the
current question has an answer, otherwise it sets `i + 1`. A disabled or
absent button leaves the index unchanged. -/
def quizNavStep (len : Nat) (answeredCurrent : Bool) (i : Nat) :
    QuizNavAction → Nat
  | .prev => if i = 0 then i else Nat.max 0 (i - 1)
  | .next => if i = len - 1 then i else if answeredCurrent then i + 1 else i

/-- Run a sequence of navigation clicks from the initial index 0; each
click carries whether the current question was answered at that moment. -/
def quizNavRun (len : Nat) (acts : List (QuizNavAction × Bool)) : Nat :=
  acts.foldl (fun i ab => quizNavStep len ab.2 i ab.1) 0

/-- A click in the FlashcardsView: the two navigation buttons or the card
itself (which flips it). -/
inductive FlashAction where
  | prev
  | next
  | flipCard
deriving DecidableEq, Repr

/-- App.js line 462: the flashcard Previous button is disabled at index 0. -/
def flashPrevDisabled (i : Nat) : Bool := decide (i = 0)

/-- App.js line 472: the flashcard Next button is disabled at the last
index. -/
def flashNextDisabled (len i : Nat) : Bool := decide (i = len - 1)

/-- App.js lines 436-476: Previous (disabled at 0) sets `Math.max(0, i-1)`
and unflips; Next (disabled at the last index) sets
`Math.min(len - 1, i + 1)` and unflips; clicking the card toggles the flip.
A disabled button leaves the state unchanged. -/
def flashStep (len : Nat) : Nat × Bool → FlashAction → Nat × Bool
  | (i, f), .prev => if i = 0 then (i, f) else (Nat.max 0 (i - 1), false)
  | (i, f), .next => if i = len - 1 then (i, f) else (Nat.min (len - 1) (i + 1), false)
  | (i, f), .flipCard => (i, !f)

/-- Run a sequence of flashcard clicks from index 0, term side up. -/
def flashRun (len : Nat) (acts : List FlashAction) : Nat × Bool :=
  acts.foldl (flashStep len) (0, false)

/-- One quiz navigation click keeps the index within bounds. -/
theorem quizNavStep_le (len : Nat) (b : Bool) (i : Nat) (hi : i ≤ len - 1)
    (a : QuizNavAction) : quizNavStep len b i a ≤ len - 1 := by
  cases a with
  | prev =>
    show (if i = 0 then i else Nat.max 0 (i - 1)) ≤ len - 1
    split
    · exact hi
    · exact Nat.max_le.mpr ⟨Nat.zero_le _, by omega⟩
  | next =>
    show (if i = len - 1 then i else if b then i + 1 else i) ≤ len - 1
    split
    · exact hi
    · split
      · omega
      · exact hi

/-- One flashcard click keeps the index within bounds. -/
theorem flashStep_le (len : Nat) (i : Nat) (f : Bool) (hi : i ≤ len - 1)
    (a : FlashAction) : (flashStep len (i, f) a).1 ≤ len - 1 := by
  cases a with
  | prev =>
    show (if i = 0 then (i, f) else (Nat.max 0 (i - 1), false)).1 ≤ len - 1
    split
    · exact hi
    · show Nat.max 0 (i - 1) ≤ len - 1
      exact Nat.max_le.mpr ⟨Nat.zero_le _, by omega⟩
  | next =>
    show (if i = len - 1 then (i, f) else (Nat.min (len - 1) (i + 1), false)).1 ≤ len - 1
    split
    · exact hi
    · exact Nat.min_le_left _ _
  | flipCard => exact hi

theorem quizNavRun_le_aux (len : Nat) (acts : List (QuizNavAction × Bool)) :
    ∀ i, i ≤ len - 1 →
      acts.foldl (fun i ab => quizNavStep len ab.2 i ab.1) i ≤ len - 1 := by
  induction acts with
  | nil => intro i hi; exact hi
  | cons ab rest ih =>
    intro i hi
    exact ih _ (quizNavStep_le len ab.2 i hi ab.1)

theorem flashRun_le_aux (len : Nat) (acts : List FlashAction) :
    ∀ s : Nat × Bool, s.1 ≤ len - 1 →
      (acts.foldl (flashStep len) s).1 ≤ len - 1 := by
  induction acts with
  | nil => intro s hs; exact hs
  | cons a rest ih =>
    intro s hs
    exact ih _ (flashStep_le len s.1 s.2 hs a)

/-- C9: with a non-empty list, every sequence of Previous/Next clicks keeps
the quiz and flashcard indices within `[0, length - 1]`; Previous clamps at
0 and is disabled there; and a flashcard navigation click either does
nothing (disabled button) or lands on the term (unflipped) side. -/
theorem nav_index_bounds (len : Nat) (hlen : 0 < len) :
    (∀ acts : List (QuizNavAction × Bool), quizNavRun len acts ≤ len - 1) ∧
    (∀ acts : List FlashAction, (flashRun len acts).1 ≤ len - 1) ∧
    (∀ b : Bool, quizNavStep len b 0 .prev = 0) ∧
    (∀ f : Bool, flashStep len (0, f) .prev = (0, f)) ∧
    quizPrevDisabled 0 = true ∧ flashPrevDisabled 0 = true ∧
    (∀ (i : Nat) (f : Bool) (a : FlashAction), a ≠ .flipCard →
      flashStep len (i, f) a = (i, f) ∨ (flashStep len (i, f) a).2 = false) := by
  refine ⟨fun acts => quizNavRun_le_aux len acts 0 (Nat.le_sub_one_of_lt hlen),
    fun acts => flashRun_le_aux len acts (0, false) (by exact Nat.zero_le _),
    fun b => rfl, fun f => rfl, rfl, rfl, ?_⟩
  intro i f a ha
  cases a with
  | prev =>
    show (if i = 0 then (i, f) else (Nat.max 0 (i - 1), false)) = (i, f) ∨
      (if i = 0 then (i, f) else (Nat.max 0 (i - 1), false)).2 = false
    split
    · exact Or.inl rfl
    · exact Or.inr rfl
  | next =>
    show (if i = len - 1 then (i, f) else (Nat.min (len - 1) (i + 1), false)) = (i, f) ∨
      (if i = len - 1 then (i, f) else (Nat.min (len - 1) (i + 1), false)).2 = false
    split
    · exact Or.inl rfl
    · exact Or.inr rfl
  | flipCard => exact absurd rfl ha

/-- Witness for C9: three items, a concrete click sequence. -/
theorem nav_index_bounds_witness :
    0 < 3 ∧
    quizNavRun 3 [(QuizNavAction.next, true), (QuizNavAction.next, true),
      (QuizNavAction.next, true), (QuizNavAction.prev, false)] ≤ 3 - 1 ∧
    (flashRun 3 [FlashAction.next, FlashAction.flipCard, FlashAction.next,
      FlashAction.next]).1 ≤ 3 - 1 :=
  ⟨by decide,
    (nav_index_bounds 3 (by decide)).1 _,
    (nav_index_bounds 3 (by decide)).2.1 _⟩

end StudyGenie
